import Mathlib

/-!
Shallow embedding of `validate_bot.py`, a pre-flight validation utility for a
Discord bot project.  The script observes the filesystem (an `.env` file, a few
top-level files, a `commands/` folder with module files, a `data/` folder) and
the Python import environment (three libraries), runs five boolean checks, and
prints a summary.  The single side effect is the creation of the `data/`
directory when absent; the single operation that can raise out of a check is
that `mkdir` call.

The embedding models the observed world as a structure `FS`; every check is a
pure function of it.  Printing is modelled only where a claim refers to it: the
message block chosen by `check_env_file` and the final guidance block chosen by
`main`.  `check_data_folder` and `main` return in `Except Unit` because the
unguarded `mkdir` may raise.
-/

namespace ValidateBot

/-- State of the filesystem and of the Python import environment as observed by
the script.  `mkdirFails` records whether an attempted creation of the `data/`
directory would raise (e.g. a permissions failure). -/
structure FS where
  envExists : Bool
  envContent : String
  fileExists : String → Bool
  commandsDirExists : Bool
  commandFileExists : String → Bool
  dataDirExists : Bool
  mkdirFails : Bool
  discordInstalled : Bool
  dotenvInstalled : Bool
  aiofilesInstalled : Bool

/-- Python's substring test `v in content` on strings: `v.toList` occurs as a
contiguous infix of `content.toList`. -/
def strContains (content v : String) : Bool :=
  decide (v.toList <:+: content.toList)

/-- Shared shape of the scanning loops of the script: a flag starts `true`, is
set to `false` at every element failing the predicate, and the whole list is
traversed with no early exit (lines 51-57, 80-87, 159-164 of the source). -/
def all_exist_scan {α : Type} (p : α → Bool) (l : List α) : Bool :=
  l.foldl (fun all_exist x => if !p x then false else all_exist) true

/-- The `required_vars` list of `check_env_file` (line 26). -/
def required_vars : List String := ["DISCORD_TOKEN", "OWNER_ID", "PREFIX"]

/-- Message block printed by `check_env_file` before it returns: the
file-not-found guidance (lines 16-20), the missing-variables line carrying the
accumulated list (line 34), or the success line (line 37). -/
inductive EnvReport where
  | fileNotFound : EnvReport
  | missingVars : List String → EnvReport
  | configured : EnvReport
deriving DecidableEq

/-- The `missing` list accumulated by the loop of `check_env_file`
(lines 27-31): the required variables, in order, whose name does not occur as a
substring of the file content. -/
def env_missing (fs : FS) : List String :=
  required_vars.filter (fun v => !strContains fs.envContent v)

/-- Translation of `check_env_file` (lines 10-38).  Returns the boolean result
paired with the message block printed on that run. -/
def check_env_file (fs : FS) : Bool × EnvReport :=
  if !fs.envExists then
    (false, EnvReport.fileNotFound)
  else
    let missing := env_missing fs
    if !missing.isEmpty then
      (false, EnvReport.missingVars missing)
    else
      (true, EnvReport.configured)

/-- The `required_files` list of `check_required_files` (lines 45-49). -/
def required_files : List String := ["bot.py", "data_manager.py", "requirements.txt"]

/-- Translation of `check_required_files` (lines 41-59): scans every entry of
`required_files`, clearing the flag on each missing one. -/
def check_required_files (fs : FS) : Bool :=
  all_exist_scan fs.fileExists required_files

/-- The `required_commands` list of `check_commands_folder` (lines 71-78). -/
def required_commands : List String :=
  ["economy.py", "teams.py", "marketplace.py", "moderation.py",
   "server_build.py", "help_admin.py"]

/-- Translation of `check_commands_folder` (lines 62-89): returns `false` at
once when the folder is absent; otherwise scans every expected module file. -/
def check_commands_folder (fs : FS) : Bool :=
  if !fs.commandsDirExists then false
  else all_exist_scan fs.commandFileExists required_commands

/-- Translation of `check_data_folder` (lines 92-104).  The `mkdir` call is the
one operation of the script that can raise; a raise is `Except.error ()`.  The
returned state records the directory creation. -/
def check_data_folder (fs : FS) : Except Unit (Bool × FS) :=
  if !fs.dataDirExists then
    if fs.mkdirFails then Except.error ()
    else Except.ok (true, { fs with dataDirExists := true })
  else Except.ok (true, fs)

/-- Translation of `check_dependencies` (lines 107-132).  Each
`except ImportError` block ends in `return False`, so the function returns at
the first failed import. -/
def check_dependencies (fs : FS) : Bool :=
  if !fs.discordInstalled then false
  else if !fs.dotenvInstalled then false
  else if !fs.aiofilesInstalled then false
  else true

/-- Names of the libraries whose `import` statement is actually reached during
a run of `check_dependencies`, in source order: the early `return False` of a
failed import skips the remaining `try` blocks. -/
def dependency_imports_attempted (fs : FS) : List String :=
  if !fs.discordInstalled then ["discord"]
  else if !fs.dotenvInstalled then ["discord", "dotenv"]
  else ["discord", "dotenv", "aiofiles"]

/-- Guidance block printed by `main` after the summary: the run instruction of
the success path (lines 169-170) or the install instruction of the failure path
(lines 172-173). -/
inductive Guidance where
  | success : Guidance
  | failure : Guidance
deriving DecidableEq

/-- Observable outcome of a completed run of `main`: the `(name, result)`
pairs, the `all_passed` flag, the guidance block chosen, the process exit
status, and the filesystem state left behind. -/
structure MainOutput where
  results : List (String × Bool)
  allPassed : Bool
  guidance : Guidance
  exitCode : Nat
  fsAfter : FS

/-- Translation of `main` (lines 135-175): the five checks run in source order,
each result is appended to `results`, the summary loop (lines 159-164) computes
`all_passed`, and the guidance block follows the verdict.  The script never
calls `sys.exit`, so a completed run leaves the process exit status `0`; a
raise from `check_data_folder` propagates out as `Except.error`. -/
def main (fs : FS) : Except Unit MainOutput :=
  let r1 := check_env_file fs
  let r2 := check_required_files fs
  let r3 := check_commands_folder fs
  match check_data_folder fs with
  | Except.error e => Except.error e
  | Except.ok (r4, fs4) =>
    let r5 := check_dependencies fs4
    let results := [("Environment File", r1.1), ("Required Files", r2),
      ("Commands Modules", r3), ("Data Folder", r4), ("Dependencies", r5)]
    let all_passed := all_exist_scan (fun nr => nr.2) results
    Except.ok
      { results := results
        allPassed := all_passed
        guidance := if all_passed then Guidance.success else Guidance.failure
        exitCode := 0
        fsAfter := fs4 }

/-! Helper lemmas. -/

/-- The scanning loop computes the conjunction of the predicate over the list,
whatever the starting flag. -/
theorem all_exist_scan_foldl_eq {α : Type} (p : α → Bool) (l : List α) (b : Bool) :
    l.foldl (fun all_exist x => if !p x then false else all_exist) b = (b && l.all p) := by
  induction l generalizing b with
  | nil => simp
  | cons x l ih =>
    simp only [List.foldl_cons, List.all_cons, ih]
    cases p x <;> cases b <;> simp

/-- The scanning loop equals `List.all`. -/
theorem all_exist_scan_eq_all {α : Type} (p : α → Bool) (l : List α) :
    all_exist_scan p l = l.all p := by
  rw [all_exist_scan, all_exist_scan_foldl_eq, Bool.true_and]

/-- The substring test succeeds exactly when the needle is an infix of the
haystack. -/
theorem strContains_iff (content v : String) :
    strContains content v = true ↔ v.toList <:+: content.toList := by
  simp [strContains]

/-! Sample states used by witnesses and counterexamples. -/

/-- Environment in which only the `discord` library is missing; everything on
the filesystem is in place. -/
def depsOnlyDiscordMissing : FS :=
  { envExists := true
    envContent := "DISCORD_TOKEN=t OWNER_ID=1 PREFIX=!"
    fileExists := fun _ => true
    commandsDirExists := true
    commandFileExists := fun _ => true
    dataDirExists := true
    mkdirFails := false
    discordInstalled := false
    dotenvInstalled := true
    aiofilesInstalled := true }

/-! C1.  The claim states that `check_dependencies` attempts all three imports
even after an earlier one failed.  The source returns `False` inside the first
failing `except ImportError` block, so the later imports are not attempted. -/

/-- C1 counterexample: with `discord` missing and the other two libraries
present, the run attempts only the `discord` import — `dotenv` and `aiofiles`
are never attempted, contradicting the claim that every one of the three is
attempted regardless of an earlier failure. -/
theorem C1_counterexample :
    check_dependencies depsOnlyDiscordMissing = false ∧
    "dotenv" ∉ dependency_imports_attempted depsOnlyDiscordMissing ∧
    "aiofiles" ∉ dependency_imports_attempted depsOnlyDiscordMissing := by
  refine ⟨rfl, ?_, ?_⟩ <;> decide

/-- C1 (amended): `check_dependencies` attempts the imports in order `discord`,
`dotenv`, `aiofiles` and returns `false` at the first one that raised, without
attempting the remaining ones; it returns `true` exactly when all three import
successfully.  The `discord` import is always attempted; a later import is
attempted exactly when every earlier one succeeded. -/
theorem C1_dependencies_short_circuit (fs : FS) :
    check_dependencies fs
      = (fs.discordInstalled && fs.dotenvInstalled && fs.aiofilesInstalled) ∧
    "discord" ∈ dependency_imports_attempted fs ∧
    ("dotenv" ∈ dependency_imports_attempted fs ↔ fs.discordInstalled = true) ∧
    ("aiofiles" ∈ dependency_imports_attempted fs ↔
      (fs.discordInstalled = true ∧ fs.dotenvInstalled = true)) := by
  cases hd : fs.discordInstalled <;> cases he : fs.dotenvInstalled <;>
    cases ha : fs.aiofilesInstalled <;>
    simp [check_dependencies, dependency_imports_attempted, hd, he, ha]

/-! Env-file check: C3, C4, C10. -/

/-- Environment file present with all three required key names somewhere in its
text, in scrambled order and with surrounding junk. -/
def envGoodFS : FS :=
  { envExists := true
    envContent := "junk PREFIX=! more OWNER_ID=123 stuff DISCORD_TOKEN=abc"
    fileExists := fun _ => true
    commandsDirExists := true
    commandFileExists := fun _ => true
    dataDirExists := true
    mkdirFails := false
    discordInstalled := true
    dotenvInstalled := true
    aiofilesInstalled := true }

/-- Environment file present but its text lacks `OWNER_ID`. -/
def envMissingOwner : FS :=
  { envGoodFS with envContent := "DISCORD_TOKEN=abc PREFIX=!" }

/-- Environment file absent. -/
def noEnvFS : FS :=
  { envGoodFS with envExists := false }

/-- C3: `check_env_file` returns `true` exactly when the file exists and each
of the three required key names occurs as a substring anywhere in its text;
with the file absent or any key substring absent it returns `false`. -/
theorem C3_env_check_iff (fs : FS) :
    (check_env_file fs).1 = true ↔
      (fs.envExists = true ∧
        ∀ v ∈ required_vars, v.toList <:+: fs.envContent.toList) := by
  cases hex : fs.envExists with
  | false => simp [check_env_file, hex]
  | true =>
    simp only [check_env_file, env_missing, hex, Bool.not_true, Bool.false_eq_true,
      if_false, true_and]
    by_cases hemp :
        (required_vars.filter (fun v => !strContains fs.envContent v)).isEmpty = true
    · simp only [hemp, Bool.not_true, if_false]
      rw [List.isEmpty_iff, List.filter_eq_nil_iff] at hemp
      simpa [strContains] using hemp
    · simp only [hemp, Bool.not_false, if_true]
      simp only [Bool.false_eq_true, false_iff]
      intro hall
      apply hemp
      rw [List.isEmpty_iff, List.filter_eq_nil_iff]
      intro v hv
      simp only [strContains]
      simpa using hall v hv

/-- C3 witness: on a file whose text holds the three keys in scrambled order
with junk around them, the check passes. -/
theorem C3_witness : (check_env_file envGoodFS).1 = true :=
  (C3_env_check_iff envGoodFS).mpr ⟨rfl, by decide⟩

/-- C4: on an existing file whose accumulated `missing` list is non-empty, the
check returns `false`, the message block is the missing-variables line carrying
exactly that list, and a key is in the list exactly when it is required and its
name is absent from the content — no absent key omitted, no present key
listed. -/
theorem C4_missing_vars_exact (fs : FS) (hex : fs.envExists = true)
    (hmiss : env_missing fs ≠ []) :
    (check_env_file fs).1 = false ∧
    (check_env_file fs).2 = EnvReport.missingVars (env_missing fs) ∧
    ∀ v, v ∈ env_missing fs ↔
      (v ∈ required_vars ∧ ¬ (v.toList <:+: fs.envContent.toList)) := by
  have hemp : (env_missing fs).isEmpty = false := by
    rw [List.isEmpty_eq_false_iff_exists_mem]
    rcases List.exists_mem_of_ne_nil _ hmiss with ⟨v, hv⟩
    exact ⟨v, hv⟩
  refine ⟨?_, ?_, ?_⟩
  · simp [check_env_file, hex, hemp]
  · simp [check_env_file, hex, hemp]
  · intro v
    simp [env_missing, List.mem_filter, strContains]

/-- C4 witness: a file with `DISCORD_TOKEN` and `PREFIX` but no `OWNER_ID`
fails with exactly `OWNER_ID` listed missing. -/
theorem C4_witness :
    (check_env_file envMissingOwner).1 = false ∧
    (check_env_file envMissingOwner).2 = EnvReport.missingVars (env_missing envMissingOwner) ∧
    ∀ v, v ∈ env_missing envMissingOwner ↔
      (v ∈ required_vars ∧ ¬ (v.toList <:+: envMissingOwner.envContent.toList)) :=
  C4_missing_vars_exact envMissingOwner rfl (by decide)

/-- C10: with the file absent the check returns `false` with the
file-not-found block for every possible file content (so no content is read),
and no single run reports both the missing-file mode and the missing-variables
mode. -/
theorem C10_missing_file_mode (fs : FS) :
    (fs.envExists = false → ∀ c : String,
      check_env_file { fs with envContent := c } = (false, EnvReport.fileNotFound)) ∧
    ¬ ((check_env_file fs).2 = EnvReport.fileNotFound ∧
       ∃ l, (check_env_file fs).2 = EnvReport.missingVars l) := by
  constructor
  · intro hex c
    simp [check_env_file, hex]
  · rintro ⟨h1, l, h2⟩
    exact EnvReport.noConfusion (h1.symm.trans h2)

/-- C10 witness: with the file absent, even a content holding all three keys is
never consulted — the check still reports the missing-file mode. -/
theorem C10_witness :
    check_env_file { noEnvFS with envContent := "DISCORD_TOKEN OWNER_ID PREFIX" }
      = (false, EnvReport.fileNotFound) :=
  (C10_missing_file_mode noEnvFS).1 rfl "DISCORD_TOKEN OWNER_ID PREFIX"

/-! Data folder, commands folder and error escalation: C5, C6, C9. -/

/-- State like `envGoodFS` but with the data directory absent. -/
def dataAbsentFS : FS :=
  { envGoodFS with dataDirExists := false }

/-- State like `envGoodFS` but with the commands directory absent. -/
def commandsAbsentFS : FS :=
  { envGoodFS with commandsDirExists := false }

/-- State in which the data directory is absent and creating it would raise. -/
def mkdirFailFS : FS :=
  { envGoodFS with dataDirExists := false, mkdirFails := true }

/-- C5: whenever `check_data_folder` returns, it returns `true`.  With the
directory present it returns `true` leaving the state untouched (no write);
with it absent and `mkdir` succeeding it returns `true` having created the
directory, and a second run on the resulting state again returns `true`
leaving that state untouched. -/
theorem C5_data_folder_self_healing (fs : FS) :
    (∀ b fs2, check_data_folder fs = Except.ok (b, fs2) → b = true) ∧
    (fs.dataDirExists = true → check_data_folder fs = Except.ok (true, fs)) ∧
    (fs.dataDirExists = false → fs.mkdirFails = false →
      check_data_folder fs = Except.ok (true, { fs with dataDirExists := true }) ∧
      check_data_folder { fs with dataDirExists := true } =
        Except.ok (true, { fs with dataDirExists := true })) := by
  refine ⟨?_, ?_, ?_⟩
  · intro b fs2 h
    cases hd : fs.dataDirExists <;> cases hm : fs.mkdirFails <;>
      simp [check_data_folder, hd, hm] at h <;> exact h.1
  · intro hd
    simp [check_data_folder, hd]
  · intro hd hm
    constructor <;> simp [check_data_folder, hd, hm]

/-- C5 witness: starting with the data directory absent, the check creates it
and passes, and a second run on the new state passes leaving it unchanged. -/
theorem C5_witness :
    check_data_folder dataAbsentFS
      = Except.ok (true, { dataAbsentFS with dataDirExists := true }) ∧
    check_data_folder { dataAbsentFS with dataDirExists := true }
      = Except.ok (true, { dataAbsentFS with dataDirExists := true }) :=
  (C5_data_folder_self_healing dataAbsentFS).2.2 rfl rfl

/-- C6: with the commands directory absent the check returns `false` whatever
the module files' existence (so no module file is tested); with it present the
check passes exactly when every one of the six expected module files exists. -/
theorem C6_commands_folder (fs : FS) :
    (fs.commandsDirExists = false → ∀ g : String → Bool,
      check_commands_folder { fs with commandFileExists := g } = false) ∧
    (fs.commandsDirExists = true →
      (check_commands_folder fs = true ↔
        ∀ f ∈ required_commands, fs.commandFileExists f = true)) := by
  constructor
  · intro h g
    simp [check_commands_folder, h]
  · intro h
    simp [check_commands_folder, h, all_exist_scan_eq_all, List.all_eq_true]

/-- C6 witness: with the folder absent, the check fails even under a module
existence oracle that would reject every file — the files are never tested. -/
theorem C6_witness :
    check_commands_folder { commandsAbsentFS with commandFileExists := fun _ => false }
      = false :=
  (C6_commands_folder commandsAbsentFS).1 rfl (fun _ => false)

/-- C9: the run escalates an error exactly on the unguarded `mkdir` path — both
`check_data_folder` and the whole of `main` raise exactly when the data
directory is absent and its creation fails; every other check is a total
boolean function and absorbs its failures. -/
theorem C9_only_mkdir_escalates (fs : FS) :
    ((∃ e, check_data_folder fs = Except.error e) ↔
      (fs.dataDirExists = false ∧ fs.mkdirFails = true)) ∧
    ((∃ e, main fs = Except.error e) ↔
      (fs.dataDirExists = false ∧ fs.mkdirFails = true)) := by
  cases hd : fs.dataDirExists <;> cases hm : fs.mkdirFails <;>
    simp [check_data_folder, main, hd, hm]

/-- C9 witness: with the data directory absent and `mkdir` failing, `main`
terminates with an escalated error. -/
theorem C9_witness : ∃ e, main mkdirFailFS = Except.error e :=
  (C9_only_mkdir_escalates mkdirFailFS).2.mpr ⟨rfl, rfl⟩

/-! Main: C2, C7, C8. -/

/-- State in which the first three checks fail (no `.env`, no top-level files,
no commands folder) while the data directory and dependencies are fine. -/
def failManyFS : FS :=
  { envExists := false
    envContent := ""
    fileExists := fun _ => false
    commandsDirExists := false
    commandFileExists := fun _ => false
    dataDirExists := true
    mkdirFails := false
    discordInstalled := true
    dotenvInstalled := true
    aiofilesInstalled := true }

/-- Outcome of `main` on `failManyFS`: all five results recorded, the first
three `false`. -/
def failManyOut : MainOutput :=
  { results := [("Environment File", false), ("Required Files", false),
      ("Commands Modules", false), ("Data Folder", true), ("Dependencies", true)]
    allPassed := false
    guidance := Guidance.failure
    exitCode := 0
    fsAfter := failManyFS }

/-- Outcome of `main` on `dataAbsentFS`: every check passes and the data
directory has been created. -/
def dataAbsentOut : MainOutput :=
  { results := [("Environment File", true), ("Required Files", true),
      ("Commands Modules", true), ("Data Folder", true), ("Dependencies", true)]
    allPassed := true
    guidance := Guidance.success
    exitCode := 0
    fsAfter := { dataAbsentFS with dataDirExists := true } }

/-- C2: whenever `main` returns, the recorded results are exactly the five
check functions evaluated on the initial state — every check ran, none was
skipped because an earlier one returned `false` — and the overall verdict is
the conjunction of the five booleans. -/
theorem C2_main_all_checks_and_verdict (fs : FS) (out : MainOutput)
    (h : main fs = Except.ok out) :
    out.results = [("Environment File", (check_env_file fs).1),
      ("Required Files", check_required_files fs),
      ("Commands Modules", check_commands_folder fs),
      ("Data Folder", true),
      ("Dependencies", check_dependencies fs)] ∧
    out.allPassed = ((check_env_file fs).1 && check_required_files fs &&
      check_commands_folder fs && true && check_dependencies fs) := by
  have hdep : ∀ b : Bool,
      check_dependencies { fs with dataDirExists := b } = check_dependencies fs :=
    fun b => rfl
  cases hd : fs.dataDirExists <;> cases hm : fs.mkdirFails <;>
    simp [main, check_data_folder, hd, hm, hdep] at h <;>
    subst h <;>
    refine ⟨rfl, ?_⟩ <;>
    cases h1 : (check_env_file fs).1 <;> cases h2 : check_required_files fs <;>
    cases h3 : check_commands_folder fs <;> cases h5 : check_dependencies fs <;>
    simp [all_exist_scan, h1, h2, h3, h5] <;> exact h5

/-- C2 witness: on a state failing the first three checks, the results list
still records all five checks and the verdict is their conjunction. -/
theorem C2_witness :
    failManyOut.results = [("Environment File", (check_env_file failManyFS).1),
      ("Required Files", check_required_files failManyFS),
      ("Commands Modules", check_commands_folder failManyFS),
      ("Data Folder", true),
      ("Dependencies", check_dependencies failManyFS)] ∧
    failManyOut.allPassed = ((check_env_file failManyFS).1 &&
      check_required_files failManyFS && check_commands_folder failManyFS &&
      true && check_dependencies failManyFS) :=
  C2_main_all_checks_and_verdict failManyFS failManyOut rfl

/-- C7: the validator is a function of the observed state alone, and a second
run on the state left by a completed run reproduces the identical output —
same per-check results, same verdict, same guidance, same final state. -/
theorem C7_idempotent_rerun (fs : FS) (out : MainOutput)
    (h : main fs = Except.ok out) :
    main out.fsAfter = Except.ok out := by
  have henv : ∀ b c : Bool,
      check_env_file { fs with dataDirExists := b, mkdirFails := c }
        = check_env_file fs :=
    fun b c => rfl
  have hreq : ∀ b c : Bool,
      check_required_files { fs with dataDirExists := b, mkdirFails := c }
        = check_required_files fs :=
    fun b c => rfl
  have hcmd : ∀ b c : Bool,
      check_commands_folder { fs with dataDirExists := b, mkdirFails := c }
        = check_commands_folder fs :=
    fun b c => rfl
  have hdeps : ∀ b c : Bool,
      check_dependencies { fs with dataDirExists := b, mkdirFails := c }
        = check_dependencies fs :=
    fun b c => rfl
  cases hd : fs.dataDirExists <;> cases hm : fs.mkdirFails <;>
    simp [main, check_data_folder, hd, hm] at h <;> subst h <;>
    simp [main, check_data_folder, hd, hm, henv, hreq, hcmd, hdeps]

/-- C7 witness: after the run on `dataAbsentFS` created the data directory, a
rerun on the resulting state yields the identical output. -/
theorem C7_witness : main dataAbsentOut.fsAfter = Except.ok dataAbsentOut :=
  C7_idempotent_rerun dataAbsentFS dataAbsentOut rfl

/-- C8: a completed run of `main` leaves the process exit status `0` whatever
the verdict; failure is signalled only through the guidance block, which is the
failure text exactly when the verdict is fail and the success text exactly when
it is pass. -/
theorem C8_exit_and_guidance (fs : FS) (out : MainOutput)
    (h : main fs = Except.ok out) :
    out.exitCode = 0 ∧
    (out.guidance = Guidance.failure ↔ out.allPassed = false) ∧
    (out.guidance = Guidance.success ↔ out.allPassed = true) := by
  have hg : ∀ b : Bool,
      (((if b = true then Guidance.success else Guidance.failure) = Guidance.failure)
          ↔ b = false) ∧
      (((if b = true then Guidance.success else Guidance.failure) = Guidance.success)
          ↔ b = true) := by decide
  cases hd : fs.dataDirExists <;> cases hm : fs.mkdirFails <;>
    simp [main, check_data_folder, hd, hm] at h <;> subst h <;>
    exact ⟨rfl, (hg _).1, (hg _).2⟩

/-- C8 witness: the failing run on `failManyFS` still exits with status `0`,
signalling failure only through the guidance block. -/
theorem C8_witness :
    failManyOut.exitCode = 0 ∧
    (failManyOut.guidance = Guidance.failure ↔ failManyOut.allPassed = false) ∧
    (failManyOut.guidance = Guidance.success ↔ failManyOut.allPassed = true) :=
  C8_exit_and_guidance failManyFS failManyOut rfl

end ValidateBot
